import Mathlib

/-!
Shallow embedding of the ai-surrogate agent-orchestration and tool-execution
pipeline (`app/agents/simple_orchestrator.py`, `app/agents/tool_agent.py`,
`app/tools/base.py`, `app/tools/registry.py`, `app/tools/gmail_tool.py`,
`app/tools/calendar_tool.py`).

Modelling conventions:
* Python strings are Lean `String`s (a wrapper around `List Char`); the Python
  string operations used by the code (`in`, `find`, `split`, `strip`,
  `capitalize`, slicing, `lower`) are re-implemented below on the char list.
* Python dicts of heterogeneous values (`Dict[str, Any]`) are association
  lists `List (String × PVal)` with first-key-wins lookup.
* `datetime` values are a structure with an absolute day index plus
  hour/minute/second/microsecond; `timedelta` addition and `.replace` are
  given explicitly.  The current wall-clock time is always passed in as a
  parameter (`now`).
* External collaborators (the Gemini text-generation call, SMTP/IMAP
  transport) are injected as explicit functions returning `Except String …`;
  `.error e` models a raised exception with message `e`.
* Wall-clock durations and timestamps carried only for diagnostics
  (`processing_time`, log-entry timestamps) are not modelled.
-/

/-- Python `s.lower()` (ASCII case folding, as used by the repository). -/
def pyLower (s : String) : String := ⟨s.data.map Char.toLower⟩

/-- Python `needle in hay` for strings: contiguous-substring test. -/
def pyContains (hay needle : String) : Bool :=
  decide (needle.data <:+: hay.data)

/-- First index (in characters) at which `needle` occurs in `hay`, on lists. -/
def firstIdx (needle : List Char) : List Char → Option Nat
  | [] => if needle = [] then some 0 else none
  | c :: rest =>
    if needle <+: (c :: rest) then some 0
    else (firstIdx needle rest).map (· + 1)

/-- Python `hay.find(needle)` restricted to the found case (`-1` becomes
`none`). -/
def pyFind (hay needle : String) : Option Nat :=
  firstIdx needle.data hay.data

/-- Python slicing `s[n:]`. -/
def pyDrop (s : String) (n : Nat) : String := ⟨s.data.drop n⟩

/-- Python slicing `s[:n]`. -/
def pyTake (s : String) (n : Nat) : String := ⟨s.data.take n⟩

/-- Python `s.strip()` (whitespace from both ends). -/
def pyStrip (s : String) : String :=
  ⟨(s.data.dropWhile Char.isWhitespace).reverse.dropWhile Char.isWhitespace |>.reverse⟩

/-- Python `s.strip(chars)` with an explicit char set. -/
def pyStripSet (s : String) (cs : List Char) : String :=
  ⟨(s.data.dropWhile (cs.contains ·)).reverse.dropWhile (cs.contains ·) |>.reverse⟩

/-- Python `s.split()` — split on whitespace runs, dropping empty pieces. -/
def pySplitWs (s : String) : List String :=
  ((s.data.splitOnP Char.isWhitespace).filter (· ≠ [])).map String.mk

/-- Python `s.capitalize()` — first char upper-cased, rest lower-cased. -/
def pyCapitalize (s : String) : String :=
  match s.data with
  | [] => ""
  | c :: rest => ⟨c.toUpper :: rest.map Char.toLower⟩

/-- `datetime` with an absolute day index; months/years are not needed by the
pipeline, which only ever adds whole days/hours and replaces fields. -/
structure PyDateTime where
  day : Nat
  hour : Nat
  minute : Nat
  second : Nat
  microsecond : Nat
deriving DecidableEq

/-- Heterogeneous Python value (the subset the pipeline actually stores in
parameter dicts: strings, booleans, naturals, string lists, datetimes). -/
inductive PVal where
  | s (v : String)
  | b (v : Bool)
  | n (v : Nat)
  | list (v : List String)
  | dt (v : PyDateTime)
deriving DecidableEq

/-- A Python `Dict[str, Any]` of tool parameters. -/
abbrev Params := List (String × PVal)

/-- Dict key lookup (`parameters.get(k)` / `parameters[k]`). -/
def getParam : Params → String → Option PVal
  | [], _ => none
  | (k, v) :: rest, key => if k = key then some v else getParam rest key

/-- Python truthiness of a stored value. -/
def truthy : PVal → Bool
  | .s v => v ≠ ""
  | .b v => v
  | .n v => v ≠ 0
  | .list v => v ≠ []
  | .dt _ => true

/-- `parameters.get(k, default)`. -/
def getParamD (ps : Params) (key : String) (dflt : PVal) : PVal :=
  (getParam ps key).getD dflt

/-- Rendering of a value into an f-string (`f"...{value}..."`). -/
def pvRender : PVal → String
  | .s v => v
  | .b true => "True"
  | .b false => "False"
  | .n v => toString v
  | .list v => toString v
  | .dt _ => "<datetime>"

/-- Rendering of `parameters.get(k)` where a missing key prints `None`. -/
def pvRenderOpt : Option PVal → String
  | none => "None"
  | some v => pvRender v

/-- `datetime + timedelta(days=n)`. -/
def PyDateTime.addDays (d : PyDateTime) (n : Nat) : PyDateTime :=
  { d with day := d.day + n }

/-- `datetime + timedelta(hours=n)`. -/
def PyDateTime.addHours (d : PyDateTime) (n : Nat) : PyDateTime :=
  { d with day := d.day + (d.hour + n) / 24, hour := (d.hour + n) % 24 }

/-- `datetime + timedelta(minutes=n)`. -/
def PyDateTime.addMinutes (d : PyDateTime) (n : Nat) : PyDateTime :=
  { d.addHours ((d.minute + n) / 60) with minute := (d.minute + n) % 60 }

/-- `.replace(hour=h, minute=m, second=s, microsecond=us)`. -/
def PyDateTime.replaceTime (d : PyDateTime) (h m s us : Nat) : PyDateTime :=
  { d with hour := h, minute := m, second := s, microsecond := us }

/-- `.replace(minute=m, second=s, microsecond=us)` (hour kept). -/
def PyDateTime.replaceSubHour (d : PyDateTime) (m s us : Nat) : PyDateTime :=
  { d with minute := m, second := s, microsecond := us }

/-- Stand-in for `int(datetime.timestamp())` over the day-index model. -/
def PyDateTime.asTimestamp (d : PyDateTime) : Nat :=
  d.day * 86400 + d.hour * 3600 + d.minute * 60 + d.second

/-- Stand-in rendering for `strftime('%B %d at %I:%M %p')`; month names are
outside the day-index datetime model, the claims never inspect this text. -/
def PyDateTime.fmtLong (d : PyDateTime) : String :=
  "day " ++ toString d.day ++ " at " ++ toString d.hour ++ ":" ++ toString d.minute

/-- Stand-in rendering for `strftime('%I:%M %p')`. -/
def PyDateTime.fmtClock (d : PyDateTime) : String :=
  toString d.hour ++ ":" ++ toString d.minute

/-! ## Tool base layer (`app/tools/base.py`) -/

/-- `ToolResult` (the dataclass fields the pipeline reads; the wall-clock
`execution_time` float is not modelled). -/
structure ToolResult where
  success : Bool
  data : Option Params := none
  error : Option String := none
  message : String := ""
  requires_confirmation : Bool := false
  confirmation_prompt : Option String := none
  metadata : Params := []
deriving DecidableEq

/-- One entry of `BaseTool.execution_log` (`_log_execution`); the wall-clock
timestamp and duration fields are not modelled. -/
structure LogEntry where
  tool : String
  parameters : Params
  success : Bool
  error : Option String
deriving DecidableEq

/-- A concrete tool: `name`/`description`/flags from the constructor, the
`required` list of `get_parameter_schema()`, `get_confirmation_prompt`
(neither concrete tool reads the context argument, so it is dropped), and
`_execute_impl`, where `.error e` models a raised exception `e`. -/
structure ToolSpec where
  name : String
  description : String
  requires_confirmation : Bool
  requires_auth : Bool
  required_params : List String
  confirmation_prompt : Params → String
  impl : Params → Except String ToolResult

/-- `BaseTool.validate_parameters`: first missing required key, if any
(`none` encodes `{"valid": True}`). -/
def validate_parameters (required : List String) (ps : Params) : Option String :=
  (required.find? (fun p => (getParam ps p).isNone)).map
    (fun p => "Missing required parameter: " ++ p)

/-- What one call to `BaseTool.execute` produced: the returned `ToolResult`,
whether `_execute_impl` was entered, and the entries this call appended to
the tool's execution log. -/
structure ExecOutcome where
  result : ToolResult
  implCalled : Bool
  log : List LogEntry

/-- `BaseTool.execute`: validation, then the confirmation gate, then
`_execute_impl` with its exceptions converted to an error `ToolResult`;
`_log_execution` runs only after `_execute_impl` (in both the normal and the
exception path). -/
def ToolSpec.execute (t : ToolSpec) (ps : Params) : ExecOutcome :=
  match validate_parameters t.required_params ps with
  | some err =>
    { result := { success := false, error := some ("Invalid parameters: " ++ err),
                  message := "Parameter validation failed" },
      implCalled := false, log := [] }
  | none =>
    if t.requires_confirmation ∧ ¬ truthy (getParamD ps "confirmed" (.b false)) then
      { result := { success := false, requires_confirmation := true,
                    confirmation_prompt := some (t.confirmation_prompt ps),
                    message := "User confirmation required" },
        implCalled := false, log := [] }
    else
      match t.impl ps with
      | .ok r =>
        { result := r, implCalled := true,
          log := [{ tool := t.name, parameters := ps, success := r.success,
                    error := if r.success then none else r.error }] }
      | .error e =>
        { result := { success := false, error := some e,
                      message := "Tool execution failed: " ++ e },
          implCalled := true,
          log := [{ tool := t.name, parameters := ps, success := false,
                    error := some e }] }

/-! ## Gmail tool (`app/tools/gmail_tool.py`) -/

/-- `GmailTool.get_confirmation_prompt`.  The `body[:100]` slice is applied
to the rendered value (the pipeline only ever stores strings there). -/
def gmailConfirmationPrompt (ps : Params) : String :=
  match getParam ps "operation" with
  | some (.s "send") =>
    let toV := pvRenderOpt (getParam ps "to")
    let subject := pvRender (getParamD ps "subject" (.s "No subject"))
    let body := pvRender (getParamD ps "body" (.s ""))
    "📧 Send Email Confirmation\n\nTo: " ++ toV ++ "\nSubject: " ++ subject ++
      "\nMessage: " ++ pyTake body 100 ++ (if body.length > 100 then "..." else "") ++
      "\n\nDo you want to send this email?"
  | op => "Do you want to " ++ pvRenderOpt op ++ " emails?"

/-- The three operation bodies of `GmailTool` (`_send_email`, `_read_emails`,
`_search_emails`) talk to SMTP/IMAP — external transport collaborators per
the spec — and are injected here; `.error e` models a raised exception. -/
structure GmailEffects where
  send : Params → Except String ToolResult
  read : Params → Except String ToolResult
  search : Params → Except String ToolResult

/-- `GmailTool._execute_impl`: dispatch on `parameters.get("operation", "send")`. -/
def gmailImpl (fx : GmailEffects) (ps : Params) : Except String ToolResult :=
  let op := getParamD ps "operation" (.s "send")
  if op = .s "send" then fx.send ps
  else if op = .s "read" then fx.read ps
  else if op = .s "search" then fx.search ps
  else .ok { success := false, error := some ("Unknown operation: " ++ pvRender op),
             message := "Invalid operation specified" }

/-- `GmailTool.__init__`: registers under the name `"send_email"` with
`requires_confirmation=True`; schema requires only `"operation"`. -/
def gmailTool (fx : GmailEffects) : ToolSpec :=
  { name := "send_email",
    description := "Send an email to someone. Use this when the user wants to email someone, send a message via email, or communicate through email.",
    requires_confirmation := true,
    requires_auth := true,
    required_params := ["operation"],
    confirmation_prompt := gmailConfirmationPrompt,
    impl := gmailImpl fx }

/-! ## Calendar tool (`app/tools/calendar_tool.py`) -/

/-- `parameters.get("attendees", [])` as a string list. -/
def getAttendees (ps : Params) : List String :=
  match getParam ps "attendees" with
  | some (.list l) => l
  | _ => []

/-- `CalendarTool._create_event` (the simulated implementation in the
source; no external API call).  A structured `.dt` value plays the role of a
parseable ISO `start_time` string; any other value hits the
invalid-format branch. -/
def calendarCreateEvent (now : PyDateTime) (ps : Params) : ToolResult :=
  let reqErr : ToolResult :=
    { success := false, error := some "start_time is required",
      message := "Please specify when the event should start" }
  match getParam ps "start_time" with
  | none => reqErr
  | some stv =>
    if ¬ truthy stv then reqErr
    else
      match stv with
      | .dt start_dt =>
        match getParamD ps "duration_minutes" (.n 60) with
        | .n duration =>
          let end_dt := start_dt.addMinutes duration
          let title := getParamD ps "title" (.s "Meeting")
          let attendees := getAttendees ps
          let location := pvRender (getParamD ps "location" (.s ""))
          let attendees_msg :=
            if attendees ≠ [] then " with " ++ String.intercalate ", " attendees else ""
          let location_msg := if location ≠ "" then " at " ++ location else ""
          { success := true,
            data := some
              [("id", .s ("event_" ++ toString now.asTimestamp)),
               ("title", title),
               ("description", getParamD ps "description" (.s "")),
               ("start_time", .dt start_dt),
               ("end_time", .dt end_dt),
               ("duration_minutes", .n duration),
               ("attendees", .list attendees),
               ("location", getParamD ps "location" (.s "")),
               ("created_at", .dt now),
               ("status", .s "confirmed")],
            message := "✅ Calendar event created: \x27" ++ pvRender title ++ "\x27 on " ++
              start_dt.fmtLong ++ attendees_msg ++ location_msg,
            metadata := [("operation", .s "create_event"),
                         ("attendees_count", .n attendees.length)] }
        | v =>
          { success := false,
            error := some ("Failed to create calendar event: invalid duration " ++ pvRender v),
            message := "Failed to create calendar event: invalid duration " ++ pvRender v }
      | v =>
        { success := false,
          error := some ("Invalid start_time format: " ++ pvRender v),
          message := "Please provide start_time in ISO format (YYYY-MM-DDTHH:MM:SS)" }

/-- `CalendarTool._list_events` (simulated placeholder events). -/
def calendarListEvents (now : PyDateTime) (ps : Params) : ToolResult :=
  let days_ahead := match getParamD ps "days_ahead" (.n 7) with | .n k => k | _ => 7
  let max_results := match getParamD ps "max_results" (.n 10) with | .n k => k | _ => 10
  let events : List Params :=
    (List.range (min days_ahead max_results)).map (fun i =>
      [("id", .s ("event_" ++ toString (i + 1))),
       ("title", .s ("Sample Event " ++ toString (i + 1))),
       ("start_time", .dt (now.addDays (i + 1))),
       ("end_time", .dt ((now.addDays (i + 1)).addHours 1))])
  { success := true,
    data := some [("count", .n events.length)],
    message := "Found " ++ toString events.length ++ " upcoming events in the next " ++
      toString days_ahead ++ " days",
    metadata := [("operation", .s "list_events")] }

/-- `CalendarTool._check_availability` (simulated: always available). -/
def calendarCheckAvailability (ps : Params) : ToolResult :=
  let st := getParam ps "start_time"
  let et := getParam ps "end_time"
  if st.elim true (fun v => ¬ truthy v) ∨ et.elim true (fun v => ¬ truthy v) then
    { success := false, error := some "Both start_time and end_time are required",
      message := "Please specify the time range to check" }
  else
    match st, et with
    | some (.dt s), some (.dt e) =>
      { success := true,
        data := some [("available", .b true), ("start_time", .dt s), ("end_time", .dt e)],
        message := "✅ Time slot is available from " ++ s.fmtClock ++ " to " ++ e.fmtClock,
        metadata := [("operation", .s "check_availability")] }
    | _, _ =>
      { success := false, error := some "invalid time format",
        message := "Failed to check availability: invalid time format" }

/-- `CalendarTool._cancel_event` (simulated). -/
def calendarCancelEvent (ps : Params) : ToolResult :=
  match getParam ps "event_id" with
  | some v =>
    if truthy v then
      { success := true,
        data := some [("event_id", v), ("status", .s "cancelled")],
        message := "✅ Event cancelled successfully",
        metadata := [("operation", .s "cancel_event")] }
    else
      { success := false, error := some "event_id is required",
        message := "Please specify which event to cancel" }
  | none =>
    { success := false, error := some "event_id is required",
      message := "Please specify which event to cancel" }

/-- `CalendarTool._execute_impl`: dispatch on
`parameters.get("operation", "create_event")`; never raises (every branch
catches internally). -/
def calendarImplCore (now : PyDateTime) (ps : Params) : ToolResult :=
  let op := getParamD ps "operation" (.s "create_event")
  if op = .s "create_event" then calendarCreateEvent now ps
  else if op = .s "list_events" then calendarListEvents now ps
  else if op = .s "check_availability" then calendarCheckAvailability ps
  else if op = .s "cancel_event" then calendarCancelEvent ps
  else { success := false, error := some ("Unknown operation: " ++ pvRender op),
         message := "Invalid calendar operation" }

/-- `CalendarTool.get_confirmation_prompt`. -/
def calendarConfirmationPrompt (ps : Params) : String :=
  match getParam ps "operation" with
  | some (.s "create_event") =>
    let title := pvRender (getParamD ps "title" (.s "Untitled Event"))
    let time_str :=
      match getParamD ps "start_time" (.s "") with
      | .dt d => d.fmtLong
      | v => pvRender v
    let attendees := getAttendees ps
    let attendees_msg :=
      if attendees ≠ [] then "\nAttendees: " ++ String.intercalate ", " attendees else ""
    "📅 Create Calendar Event\n\nTitle: " ++ title ++ "\nWhen: " ++ time_str ++
      "\nDuration: " ++ pvRender (getParamD ps "duration_minutes" (.n 60)) ++
      " minutes" ++ attendees_msg ++ "\n\nDo you want to create this event?"
  | some (.s "cancel_event") =>
    "⚠️ Are you sure you want to cancel this event? This action cannot be undone."
  | op => "Do you want to perform calendar operation: " ++ pvRenderOpt op ++ "?"

/-- `CalendarTool.__init__`: registers under `"create_calendar_event"` with
`requires_confirmation=True`; schema requires only `"operation"`. -/
def calendarTool (now : PyDateTime) : ToolSpec :=
  { name := "create_calendar_event",
    description := "Create a calendar event or meeting. Use when user wants to schedule a meeting, book an appointment, set a calendar event, or plan something at a specific time.",
    requires_confirmation := true,
    requires_auth := true,
    required_params := ["operation"],
    confirmation_prompt := calendarConfirmationPrompt,
    impl := fun ps => .ok (calendarImplCore now ps) }

/-! ## Tool registry (`app/tools/registry.py`)

At startup `CommunicationAgent.__init__` registers the Gmail tool and
`SchedulerAgentEnhanced.__init__` registers the Calendar tool, each under
`tool.name`, so the registry maps exactly `"send_email" ↦ GmailTool` and
`"create_calendar_event" ↦ CalendarTool`. -/

/-- `ToolRegistry.get_tool` on the registry as populated at startup. -/
def registryLookup (fx : GmailEffects) (now : PyDateTime) (name : String) : Option ToolSpec :=
  if name = "send_email" then some (gmailTool fx)
  else if name = "create_calendar_event" then some (calendarTool now)
  else none

/-- `ToolRegistry.execute_tool`: unknown names yield a not-found
`ToolResult` without reaching any tool. -/
def executeToolByName (fx : GmailEffects) (now : PyDateTime) (name : String) (ps : Params) :
    ExecOutcome :=
  match registryLookup fx now name with
  | none =>
    { result := { success := false, error := some ("Tool \x27" ++ name ++ "\x27 not found"),
                  message := "Tool not found in registry" },
      implCalled := false, log := [] }
  | some t => t.execute ps

/-! ## AI service (`app/services/ai_service.py`)

The Gemini model call (`self.model.generate_content`) is the external
language-generation collaborator; it is injected as `llm : String → Except
String String` mapping the full prompt to `response.text` (`.error e` models
a raised exception).  The service's configuration state is reduced to the
`GEMINI_API_KEY` value. -/

/-- The language-generation collaborator. -/
abbrev Llm := String → Except String String

/-- Configuration read by `AIService`. -/
structure AiCfg where
  geminiKey : Option String

/-- The key check of `generate_chat_response` (`not GEMINI_API_KEY or
GEMINI_API_KEY == "your-gemini-api-key-here"`, negated). -/
def keyUsable (cfg : AiCfg) : Bool :=
  match cfg.geminiKey with
  | none => false
  | some k => k ≠ "" ∧ k ≠ "your-gemini-api-key-here"

/-- `AIService.__init__`'s `self.configured` flag (key usable and longer
than 20 characters). -/
def aiConfigured (cfg : AiCfg) : Bool :=
  match cfg.geminiKey with
  | none => false
  | some k => (k ≠ "" ∧ k ≠ "your-gemini-api-key-here") ∧ k.length > 20

/-- The fixed emotion vocabulary of `analyze_emotion`. -/
def validEmotions : List String :=
  ["happy", "sad", "neutral", "excited", "concerned", "supportive", "curious", "thoughtful"]

/-- The prompt template of `analyze_emotion`. -/
def emotionPrompt (text : String) : String :=
  "Analyze the emotional tone of this message and return only one word from this list: happy, sad, neutral, excited, concerned, supportive, curious, thoughtful.\n\nMessage: \"" ++ text ++ "\"\n\nEmotion:"

/-- `AIService.analyze_emotion`: on an unconfigured model the
`self.model.generate_content` call raises (model is `None`) and the except
branch yields `"neutral"`; otherwise out-of-vocabulary, empty, or failing
responses also degrade to `"neutral"`. -/
def aiAnalyzeEmotion (cfg : AiCfg) (llm : Llm) (text : String) : String :=
  if ¬ aiConfigured cfg then "neutral"
  else
    match llm (emotionPrompt text) with
    | .error _ => "neutral"
    | .ok t =>
      if t ≠ "" then
        let e := pyLower (pyStrip t)
        if validEmotions.contains e then e else "neutral"
      else "neutral"

/-- The system prompt of `generate_response`. -/
def aiSystemPrompt : String :=
  "You are an AI Surrogate - a compassionate, intelligent companion designed to provide emotional support, engaging conversation, and helpful assistance. \n\nYour personality traits:\n- Empathetic and understanding\n- Supportive but not overly sentimental\n- Curious and engaging\n- Helpful and informative\n- Maintains appropriate boundaries\n\nGuidelines:\n- Keep responses conversational and natural\n- Show genuine interest in the user\x27s wellbeing\n- Provide helpful information when requested\n- Be emotionally supportive during difficult times\n- Maintain a positive, encouraging tone\n- Keep responses under 150 words unless specifically asked for more detail\n\n"

/-- Prompt assembly of `generate_response` (`"\n\n".join(prompt_parts)`,
with falsy context/memory skipped). -/
def buildFullPrompt (message : String) (context memory : Option String) : String :=
  String.intercalate "\n\n"
    ([aiSystemPrompt] ++
     (match memory with
      | some m => if m ≠ "" then ["User context and memory: " ++ m] else []
      | none => []) ++
     (match context with
      | some c => if c ≠ "" then ["Recent conversation context: " ++ c] else []
      | none => []) ++
     ["User message: " ++ message, "Respond as the AI Surrogate:"])

/-- Result of `generate_response`. -/
structure GenResult where
  content : String
  emotion : String
deriving DecidableEq

/-- The apology result of `generate_response`'s except branch. -/
def genApology : GenResult :=
  { content := "I\x27m sorry, I\x27m having trouble processing your message right now. Could you please try again?",
    emotion := "neutral" }

/-- `AIService.generate_response`: keyword fallbacks when unconfigured,
otherwise one `llm` call; an empty response raises `"No response generated"`
and, like any other exception, is caught by the method's own except branch,
which returns the apology result — the method itself never raises. -/
def aiGenerateResponse (cfg : AiCfg) (llm : Llm) (message : String)
    (context memory : Option String) : GenResult :=
  if ¬ aiConfigured cfg then
    let ml := pyLower message
    if ["hello", "hi", "hey", "greetings"].any (pyContains ml ·) then
      { content := "Hello! I\x27m your AI Surrogate companion. I\x27m here to chat, help you plan your day, answer questions, and provide support. How can I assist you today?",
        emotion := "friendly" }
    else if ["what can you", "help me", "what do you do", "capabilities"].any (pyContains ml ·) then
      { content := "I\x27m your AI companion! I can help you with:\n\n• Casual conversation and emotional support\n• Scheduling and time management\n• Answering questions and providing information\n• Remembering important details about our conversations\n• Planning your day\n\nWhat would you like to talk about?",
        emotion := "helpful" }
    else if ["how are you", "how\x27s it going", "how do you feel"].any (pyContains ml ·) then
      { content := "I\x27m doing well, thank you for asking! I\x27m here and ready to help you with whatever you need. How are you doing today?",
        emotion := "friendly" }
    else if ["schedule", "plan", "today", "tomorrow", "calendar"].any (pyContains ml ·) then
      { content := "I\x27d be happy to help you with your schedule! You mentioned: \x27" ++ message ++ "\x27. While my full AI capabilities are being set up, I can still help you think through your planning. What specific scheduling help do you need?",
        emotion := "helpful" }
    else
      { content := "I hear you! You said: \x27" ++ message ++ "\x27. I\x27m your AI companion and I\x27m here to help. While my full AI capabilities are being configured, I can still chat with you! What would you like to talk about?",
        emotion := "friendly" }
  else
    match llm (buildFullPrompt message context memory) with
    | .ok t =>
      if t ≠ "" then { content := pyStrip t, emotion := aiAnalyzeEmotion cfg llm t }
      else genApology
    | .error _ => genApology

/-- `AIService.generate_chat_response`: early greeting when the key is
unusable, otherwise the content of `generate_response`; its own except
branch is unreachable because `generate_response` never raises, so this
function is total — a raising `llm` never propagates past it. -/
def aiGenerateChatResponse (cfg : AiCfg) (llm : Llm) (message : String)
    (context memory : Option String) : String :=
  if ¬ keyUsable cfg then
    "Hello! I\x27m your AI Surrogate companion. I\x27m currently setting up my AI capabilities. How can I help you today?"
  else (aiGenerateResponse cfg llm message context memory).content

/-! ## Tool-enabled agents (`app/agents/tool_agent.py`) -/

/-- The dict returned by the agents' `_should_use_tool`. -/
structure ToolDecision where
  use_tool : Bool
  tool_name : Option String
  reason : String
deriving DecidableEq

/-- `CommunicationAgent._should_use_tool`'s compose keywords. -/
def compose_email_keywords : List String :=
  ["send email", "email", "send message to", "write email", "compose email", "draft email"]

/-- `CommunicationAgent._should_use_tool`'s read keywords. -/
def read_email_keywords : List String :=
  ["check email", "read email", "inbox", "check messages", "any emails"]

/-- The known first names used as recipient cues. -/
def knownNames : List String := ["talha", "ahmad", "saad"]

/-- `CommunicationAgent._should_use_tool`. -/
def commShouldUseTool (message : String) : ToolDecision :=
  let ml := pyLower message
  if compose_email_keywords.any (pyContains ml ·) then
    let has_recipient :=
      pyContains message "@" || knownNames.any (pyContains ml ·)
    if has_recipient || pyContains ml "send" || pyContains ml "email" then
      ⟨true, some "gmail_tool", "User wants to compose email draft"⟩
    else if read_email_keywords.any (pyContains ml ·) then
      ⟨true, some "gmail_tool", "User wants to read emails"⟩
    else ⟨false, none, "No tool needed"⟩
  else if read_email_keywords.any (pyContains ml ·) then
    ⟨true, some "gmail_tool", "User wants to read emails"⟩
  else ⟨false, none, "No tool needed"⟩

/-- `CommunicationAgent._extract_tool_parameters`. -/
def commExtractToolParameters (message : String) (tool_name : String) : Params :=
  let ml := pyLower message
  if tool_name = "gmail_tool" then
    let base : Params := [("operation", .s "create_draft")]
    let recip : Params :=
      if pyContains message "@" then
        match (pySplitWs message).find? (fun w => pyContains w "@") with
        | some w => [("to", .s (pyStripSet w ['.', ',', '!', '?', ' ']))]
        | none => []
      else
        match knownNames.find? (fun n => pyContains ml n) with
        | some n => [("to", .s (n ++ "@example.com"))]
        | none => []
    let subjBody : Params :=
      if pyContains ml "about" then
        match pyFind ml "about" with
        | some about_idx =>
          let remaining := pyStrip (pyDrop message (about_idx + 5))
          if remaining.length > 0 then
            [("subject", .s (pyTake remaining 50)), ("body", .s remaining)]
          else
            [("subject", .s "Message from AI Surrogate"), ("body", .s message)]
        | none => [("subject", .s "Message from AI Surrogate"), ("body", .s message)]
      else
        [("subject", .s "Message from AI Surrogate"), ("body", .s message)]
    base ++ recip ++ subjBody
  else if tool_name = "read_email" then
    [("operation", .s "read"), ("limit", .n 10)]
  else []

/-- The guidance prompt of `CommunicationAgent.process`'s no-tool branch. -/
def commGuidancePrompt (message : String) : String :=
  "You are a communication assistant. The user said: \"" ++ message ++ "\"\n\nProvide helpful guidance about communication (email, messaging, etc.) without actually performing the action.\n\nBe conversational and helpful. If they want to send an email or message, ask for details like:\n- Who should I send it to?\n- What should the subject be?\n- What message would you like to send?\n\nUser message: " ++ message ++ "\n\nResponse:"

/-- The dict returned by an agent's `process` (wall-clock
`processing_time` not modelled). -/
structure AgentResp where
  content : String
  confidence : ℚ
  tool_used : Option String := none
  tool_result : Option ToolResult := none
  requires_confirmation : Option Bool := none
  agent_error : Option String := none
deriving DecidableEq

/-- `CommunicationAgent.process`.  Total: the tool path cannot raise
(`registry.execute_tool` catches), and the guidance path's
`generate_chat_response` is total, so the agent's own except branch is
unreachable. -/
def commProcess (cfg : AiCfg) (llm : Llm) (fx : GmailEffects) (now : PyDateTime)
    (message : String) (context memory : Option String) : AgentResp :=
  let d := commShouldUseTool message
  if d.use_tool then
    let tn := d.tool_name.getD "None"
    let ps := commExtractToolParameters message tn
    let tr := (executeToolByName fx now tn ps).result
    let response_text :=
      if tr.requires_confirmation then
        (match tr.confirmation_prompt with | some p => p | none => "None") ++
          "\n\nPlease confirm to proceed."
      else if tr.success then tr.message
      else "I encountered an issue: " ++ tr.message ++
        "\n\nLet me know if you\x27d like to try again."
    { content := response_text,
      confidence := if tr.success then 9/10 else 6/10,
      tool_used := some tn, tool_result := some tr,
      requires_confirmation := some tr.requires_confirmation }
  else
    { content := aiGenerateChatResponse cfg llm (commGuidancePrompt message) context memory,
      confidence := 8/10 }

/-- `SchedulerAgentEnhanced._should_use_tool`'s schedule keywords. -/
def schedule_keywords : List String :=
  ["schedule", "book meeting", "create event", "add to calendar", "meeting with", "appointment"]

/-- `SchedulerAgentEnhanced._should_use_tool`'s time-cue words. -/
def sched_time_words : List String :=
  ["tomorrow", "today", "pm", "am", "7pm", "morning", "afternoon"]

/-- `SchedulerAgentEnhanced._should_use_tool`. -/
def schedShouldUseTool (message : String) : ToolDecision :=
  let ml := pyLower message
  if schedule_keywords.any (pyContains ml ·) then
    if sched_time_words.any (pyContains ml ·) then
      ⟨true, some "create_calendar_event", "User wants to schedule with specific time"⟩
    else ⟨false, none, "Need more details"⟩
  else ⟨false, none, "Need more details"⟩

/-- `SchedulerAgentEnhanced._extract_calendar_parameters`.  Note that when
the message contains neither "tomorrow" nor "today", no `start_time` key is
produced at all. -/
def extractCalendarParameters (message : String) (now : PyDateTime) : Params :=
  let ml := pyLower message
  let base : Params := [("operation", .s "create_event"), ("duration_minutes", .n 60)]
  let titlePart : Params :=
    if pyContains ml "meeting with" then
      match pyFind ml "meeting with" with
      | some idx =>
        let remaining := pyStrip (pyDrop message (idx + 12))
        let name := if remaining ≠ "" then (pySplitWs remaining).headD "someone" else "someone"
        [("title", .s ("Meeting with " ++ pyCapitalize name)),
         ("attendees", .list [name ++ "@example.com"])]
      | none => []
    else if pyContains ml "book" then [("title", .s "Scheduled Event")]
    else []
  let timePart : Params :=
    if pyContains ml "tomorrow" then
      if pyContains ml "7pm" || pyContains ml "7 pm" then
        [("start_time", .dt ((now.addDays 1).replaceTime 19 0 0 0))]
      else
        [("start_time", .dt ((now.addDays 1).replaceTime 10 0 0 0))]
    else if pyContains ml "today" then
      if pyContains ml "7pm" || pyContains ml "7 pm" then
        [("start_time", .dt (now.replaceTime 19 0 0 0))]
      else
        [("start_time", .dt ((now.addHours 1).replaceSubHour 0 0 0))]
    else []
  base ++ titlePart ++ timePart

/-- The guidance prompt of `SchedulerAgentEnhanced.process`'s no-tool branch. -/
def schedGuidancePrompt (message : String) : String :=
  "You are a scheduling assistant. The user said: \"" ++ message ++ "\"\n\nHelp them with scheduling, time management, or calendar-related tasks. Be specific and actionable.\n\nIf they want to schedule something, ask for:\n- What event/meeting\n- When (date and time)\n- Who should attend\n- Duration\n\nUser message: " ++ message ++ "\n\nResponse:"

/-- `SchedulerAgentEnhanced.process` (total, like `commProcess`). -/
def schedProcess (cfg : AiCfg) (llm : Llm) (fx : GmailEffects) (now : PyDateTime)
    (message : String) (context memory : Option String) : AgentResp :=
  let d := schedShouldUseTool message
  if d.use_tool then
    let ps := extractCalendarParameters message now
    let tr := (executeToolByName fx now "create_calendar_event" ps).result
    let response_text :=
      if tr.requires_confirmation then
        (match tr.confirmation_prompt with | some p => p | none => "None") ++
          "\n\nShall I proceed?"
      else if tr.success then
        tr.message ++
          (if (getParam ps "attendees").elim false truthy then
            "\n\nWould you like me to send email invitations to the attendees?"
          else "")
      else "I had trouble scheduling that: " ++ tr.message
    { content := response_text,
      confidence := if tr.success then 9/10 else 6/10,
      tool_used := some "create_calendar_event", tool_result := some tr,
      requires_confirmation := some tr.requires_confirmation }
  else
    { content := aiGenerateChatResponse cfg llm (schedGuidancePrompt message) context memory,
      confidence := 8/10 }

/-! ## Plain agents, router, orchestrator (`app/agents/simple_orchestrator.py`) -/

/-- `ChatAgent.process`.  Its except branch is unreachable:
`generate_chat_response` is total. -/
def chatProcess (cfg : AiCfg) (llm : Llm) (message : String)
    (context memory : Option String) : AgentResp :=
  { content := aiGenerateChatResponse cfg llm message context memory, confidence := 9/10 }

/-- The prompt template of `DocsAgent.process`. -/
def docsPrompt (message : String) (context : Option String) : String :=
  "You are a knowledgeable assistant helping with information requests. The user is asking: \"" ++ message ++ "\"\n\nProvide accurate, helpful information. If you\x27re not certain about specific facts, be honest about limitations.\n\nContext: " ++
    (match context with
     | some c => if c ≠ "" then c else "No previous context"
     | none => "No previous context") ++
    "\nUser question: " ++ message ++ "\n\nHelpful response:"

/-- `DocsAgent.process` (total). -/
def docsProcess (cfg : AiCfg) (llm : Llm) (message : String)
    (context memory : Option String) : AgentResp :=
  { content := aiGenerateChatResponse cfg llm (docsPrompt message context) context memory,
    confidence := 8/10 }

/-- The keyword list of `MemoryAgent.should_update_memory`. -/
def important_keywords : List String :=
  ["important", "remember", "don\x27t forget", "my name", "birthday",
   "favorite", "prefer", "like", "dislike", "family", "work", "hobby"]

/-- The decision dict of `MemoryAgent.should_update_memory`. -/
structure MemoryDecision where
  importance : Nat
  reason : String
deriving DecidableEq

/-- `MemoryAgent.should_update_memory` (pure; its except branch is
unreachable). -/
def shouldUpdateMemory (user_message ai_response : String) : Option MemoryDecision :=
  let combined := pyLower (user_message ++ " " ++ ai_response)
  if important_keywords.any (pyContains combined ·) then
    some ⟨7, "Contains important personal information"⟩
  else if user_message.length > 100 then
    some ⟨4, "Detailed conversation"⟩
  else none

/-- `_route_message`'s communication keywords. -/
def communication_keywords : List String :=
  ["send email", "email", "send message to", "write email", "compose email",
   "check email", "inbox", "message", "notify", "tell"]

/-- `_route_message`'s schedule keywords. -/
def route_schedule_keywords : List String :=
  ["schedule", "calendar", "appointment", "meeting", "reminder",
   "tomorrow", "today", "next week", "plan", "time", "date", "book",
   "what do i have", "upcoming"]

/-- `_route_message`'s docs keywords. -/
def docs_keywords : List String :=
  ["search", "find", "lookup", "information", "explain", "what is",
   "how to", "help with", "documentation", "guide"]

/-- `_route_message`'s memory keywords. -/
def memory_keywords : List String :=
  ["remember", "forget", "recall", "you said", "we talked about",
   "last time", "before", "history"]

/-- `SimpleAgentOrchestrator._route_message`: fixed priority chain with
`"chat"` as default (the surrounding try/except cannot fire: the body is
pure). -/
def routeMessage (message : String) : String :=
  let ml := pyLower message
  if communication_keywords.any (pyContains ml ·) then "communication"
  else if route_schedule_keywords.any (pyContains ml ·) then "scheduler"
  else if docs_keywords.any (pyContains ml ·) then "docs"
  else if memory_keywords.any (pyContains ml ·) then "memory"
  else "chat"

/-- `self.agents[agent].process(...)` as an `Except`: the chat, scheduler,
docs and communication agents are total; the emotion and memory agents do
not override `BaseAgent.process`, so the call raises a bare
`NotImplementedError` (whose `str` is the empty string); any other key
would be a `KeyError` (unreachable for `routeMessage` outputs). -/
def agentProcessE (cfg : AiCfg) (llm : Llm) (fx : GmailEffects) (now : PyDateTime)
    (agent message : String) (context memory : Option String) : Except String AgentResp :=
  if agent = "chat" then .ok (chatProcess cfg llm message context memory)
  else if agent = "emotion" then .error ""
  else if agent = "memory" then .error ""
  else if agent = "scheduler" then .ok (schedProcess cfg llm fx now message context memory)
  else if agent = "docs" then .ok (docsProcess cfg llm message context memory)
  else if agent = "communication" then .ok (commProcess cfg llm fx now message context memory)
  else .error ("KeyError: " ++ agent)

/-- `_get_agent_display_name`. -/
def agentDisplayName (agent : String) : String :=
  if agent = "chat" then "Chat Assistant"
  else if agent = "emotion" then "Emotion Analyzer"
  else if agent = "memory" then "Memory Manager"
  else if agent = "scheduler" then "Schedule Assistant"
  else if agent = "docs" then "Knowledge Assistant"
  else if agent = "communication" then "Communication Agent"
  else "Unknown Agent"

/-- The result assembled by `process_message` (execution trace, icon and
wall-clock timings are diagnostic only and not modelled; the metadata dict
is flattened into its `error` / `memory_updated` / `confidence` keys, absent
keys being `none`). -/
structure OrchResult where
  response : String
  emotion : String
  agent_used : String
  agent_display_name : String
  metadata_error : Option String
  metadata_memory_updated : Option Bool
  metadata_confidence : Option ℚ
deriving DecidableEq

/-- `SimpleAgentOrchestrator.process_message`.  In the normal path the
emotion and memory sub-tasks are total (`_execute_with_tracking` and the
agents catch internally), and `update_memory` swallows storage errors, so
the only exception that can reach the top-level except branch is one raised
by the primary agent itself; that branch falls back to the Chat agent with
`agent_used="fallback"` and `emotion="neutral"`. -/
def processMessage (cfg : AiCfg) (llm : Llm) (fx : GmailEffects) (now : PyDateTime)
    (message : String) (context memory : Option String) : OrchResult :=
  let primary := routeMessage message
  match agentProcessE cfg llm fx now primary message context memory with
  | .ok pr =>
    let emotion := aiAnalyzeEmotion cfg llm pr.content
    let memory_update := shouldUpdateMemory message pr.content
    { response := pr.content, emotion := emotion, agent_used := primary,
      agent_display_name := agentDisplayName primary,
      metadata_error := none,
      metadata_memory_updated := some memory_update.isSome,
      metadata_confidence := some pr.confidence }
  | .error e =>
    let fb := chatProcess cfg llm message context memory
    { response := fb.content, emotion := "neutral", agent_used := "fallback",
      agent_display_name := "Fallback Agent",
      metadata_error := some e,
      metadata_memory_updated := none,
      metadata_confidence := none }

/-! ## Test fixtures (concrete collaborators for closed statements) -/

/-- A stub email transport (never reached by the properties below). -/
def stubEffects : GmailEffects :=
  { send := fun _ => .ok { success := true },
    read := fun _ => .ok { success := true },
    search := fun _ => .ok { success := true } }

/-- A concrete wall-clock instant. -/
def testNow : PyDateTime := ⟨100, 8, 30, 0, 0⟩

/-- A language-generation collaborator that raises on every call. -/
def llmDown : Llm := fun _ => .error "LLM unavailable"

/-- A configuration whose API key passes both key checks. -/
def cfgOk : AiCfg := { geminiKey := some "AIzaSyA-1234567890-abcdefghijk" }

/-! ## Helper lemmas -/

/-- A string with positive length is not empty. -/
theorem str_ne_empty_of_len {s : String} (h : 0 < s.length) : s ≠ "" := by
  intro he
  have h0 : s.length = 0 := by rw [he]; rfl
  omega

/-- Appending cannot shrink a nonempty left factor to the empty string. -/
theorem str_append_len_pos (a b : String) (h : 0 < a.length) : 0 < (a ++ b).length := by
  rw [String.length_append]; omega

/-- Substring containment is monotone in the needle. -/
theorem pyContains_mono {h n n' : String} (hc : pyContains h n = true)
    (hinf : n'.data <:+: n.data) : pyContains h n' = true := by
  unfold pyContains at *
  exact decide_eq_true (hinf.trans (of_decide_eq_true hc))

/-- With a collaborator that raises on every call, `analyze_emotion`
degrades to `"neutral"`. -/
theorem aiAnalyzeEmotion_of_fail (cfg : AiCfg) (llm : Llm) (t : String)
    (hfail : ∀ p, ∃ e, llm p = .error e) : aiAnalyzeEmotion cfg llm t = "neutral" := by
  unfold aiAnalyzeEmotion
  by_cases hc : aiConfigured cfg = true
  · obtain ⟨e, he⟩ := hfail (emotionPrompt t)
    simp [hc, he]
  · simp [hc]

/-! ## Claims -/

/-- C10: any message containing a compose-email keyword makes
`CommunicationAgent._should_use_tool` return the use-tool decision for
`"gmail_tool"`: every compose keyword contains `"send"` or `"email"` as a
substring, so the recipient-cue disjunction is always satisfied and the
no-tool branch is unreachable for such messages. -/
theorem compose_keyword_always_triggers_tool (msg : String)
    (h : ∃ kw ∈ compose_email_keywords, pyContains (pyLower msg) kw = true) :
    commShouldUseTool msg =
      ⟨true, some "gmail_tool", "User wants to compose email draft"⟩ := by
  obtain ⟨kw, hkw, hc⟩ := h
  have hany : compose_email_keywords.any (pyContains (pyLower msg) ·) = true :=
    List.any_eq_true.mpr ⟨kw, hkw, hc⟩
  have hse : pyContains (pyLower msg) "send" = true ∨
      pyContains (pyLower msg) "email" = true := by
    simp only [compose_email_keywords, List.mem_cons, List.not_mem_nil, or_false] at hkw
    rcases hkw with rfl | rfl | rfl | rfl | rfl | rfl
    · exact Or.inl (pyContains_mono hc (by decide))
    · exact Or.inr (pyContains_mono hc (by decide))
    · exact Or.inl (pyContains_mono hc (by decide))
    · exact Or.inr (pyContains_mono hc (by decide))
    · exact Or.inr (pyContains_mono hc (by decide))
    · exact Or.inr (pyContains_mono hc (by decide))
  unfold commShouldUseTool
  rcases hse with h1 | h1 <;> simp [hany, h1]

/-- Witness for C10 at the concrete message "please send email to bob". -/
theorem compose_keyword_always_triggers_tool_witness :
    commShouldUseTool "please send email to bob" =
      ⟨true, some "gmail_tool", "User wants to compose email draft"⟩ :=
  compose_keyword_always_triggers_tool "please send email to bob"
    ⟨"send email", by decide, by decide⟩

/-- C5: the Router always returns exactly one of the five agent identifiers
(never empty), by case-insensitive substring matching in the fixed priority
order communication → scheduler → docs → memory, with chat as the default;
first match wins. -/
theorem router_total_priority_chain (msg : String) :
    (routeMessage msg = "communication" ∨ routeMessage msg = "scheduler" ∨
     routeMessage msg = "docs" ∨ routeMessage msg = "memory" ∨
     routeMessage msg = "chat") ∧
    routeMessage msg ≠ "" ∧
    (communication_keywords.any (pyContains (pyLower msg) ·) = true →
      routeMessage msg = "communication") ∧
    (communication_keywords.any (pyContains (pyLower msg) ·) = false →
      route_schedule_keywords.any (pyContains (pyLower msg) ·) = true →
      routeMessage msg = "scheduler") ∧
    (communication_keywords.any (pyContains (pyLower msg) ·) = false →
      route_schedule_keywords.any (pyContains (pyLower msg) ·) = false →
      docs_keywords.any (pyContains (pyLower msg) ·) = true →
      routeMessage msg = "docs") ∧
    (communication_keywords.any (pyContains (pyLower msg) ·) = false →
      route_schedule_keywords.any (pyContains (pyLower msg) ·) = false →
      docs_keywords.any (pyContains (pyLower msg) ·) = false →
      memory_keywords.any (pyContains (pyLower msg) ·) = true →
      routeMessage msg = "memory") ∧
    (communication_keywords.any (pyContains (pyLower msg) ·) = false →
      route_schedule_keywords.any (pyContains (pyLower msg) ·) = false →
      docs_keywords.any (pyContains (pyLower msg) ·) = false →
      memory_keywords.any (pyContains (pyLower msg) ·) = false →
      routeMessage msg = "chat") := by
  unfold routeMessage
  dsimp only
  split_ifs with h1 h2 h3 h4 <;> simp_all

/-- Witness for C5 at a concrete communication-keyword message. -/
theorem router_total_priority_chain_witness :
    routeMessage "send email to the team" = "communication" :=
  (router_total_priority_chain "send email to the team").2.2.1 (by decide)

/-- C6: `MemoryAgent.should_update_memory` returns importance 7 whenever the
combined lower-cased text contains a personal-significance keyword,
otherwise importance 4 whenever the user message exceeds 100 characters,
otherwise `None`; in particular it returns importance 7 on
("my birthday is June 1st", "noted") and `None` on ("ok", "sure"). -/
theorem memory_should_update_heuristic (um ar : String) :
    (important_keywords.any (pyContains (pyLower (um ++ " " ++ ar)) ·) = true →
      shouldUpdateMemory um ar = some ⟨7, "Contains important personal information"⟩) ∧
    (important_keywords.any (pyContains (pyLower (um ++ " " ++ ar)) ·) = false →
      um.length > 100 →
      shouldUpdateMemory um ar = some ⟨4, "Detailed conversation"⟩) ∧
    (important_keywords.any (pyContains (pyLower (um ++ " " ++ ar)) ·) = false →
      ¬ um.length > 100 →
      shouldUpdateMemory um ar = none) ∧
    shouldUpdateMemory "my birthday is June 1st" "noted" =
      some ⟨7, "Contains important personal information"⟩ ∧
    shouldUpdateMemory "ok" "sure" = none := by
  refine ⟨?_, ?_, ?_, by decide, by decide⟩
  · intro h
    unfold shouldUpdateMemory
    dsimp only
    simp [h]
  · intro h h2
    unfold shouldUpdateMemory
    dsimp only
    simp [h, h2]
  · intro h h2
    unfold shouldUpdateMemory
    dsimp only
    simp [h, h2]

/-- Witness for C6 at the two concrete spec examples. -/
theorem memory_should_update_heuristic_witness :
    shouldUpdateMemory "my birthday is June 1st" "noted" =
      some ⟨7, "Contains important personal information"⟩ ∧
    shouldUpdateMemory "ok" "sure" = none :=
  ⟨(memory_should_update_heuristic "my birthday is June 1st" "noted").1 (by decide),
   (memory_should_update_heuristic "ok" "sure").2.2.1 (by decide) (by decide)⟩

/-- C7: on "schedule a meeting with talha tomorrow at 7pm" the Router picks
the Scheduler, the Scheduler's tool decision triggers
`create_calendar_event`, and the extracted parameters carry a title
containing "Talha", attendees `["talha@example.com"]`, a start time at
19:00 on the next day, and a 60-minute duration — for any current time. -/
theorem scheduler_meeting_scenario (now : PyDateTime) :
    routeMessage "schedule a meeting with talha tomorrow at 7pm" = "scheduler" ∧
    schedShouldUseTool "schedule a meeting with talha tomorrow at 7pm" =
      ⟨true, some "create_calendar_event", "User wants to schedule with specific time"⟩ ∧
    getParam (extractCalendarParameters "schedule a meeting with talha tomorrow at 7pm" now)
        "title" = some (.s "Meeting with Talha") ∧
    pyContains "Meeting with Talha" "Talha" = true ∧
    getParam (extractCalendarParameters "schedule a meeting with talha tomorrow at 7pm" now)
        "attendees" = some (.list ["talha@example.com"]) ∧
    getParam (extractCalendarParameters "schedule a meeting with talha tomorrow at 7pm" now)
        "start_time" = some (.dt ⟨now.day + 1, 19, 0, 0, 0⟩) ∧
    getParam (extractCalendarParameters "schedule a meeting with talha tomorrow at 7pm" now)
        "duration_minutes" = some (.n 60) :=
  ⟨by decide, by decide, rfl, by decide, rfl, rfl, rfl⟩

/-- C1 (failing input): on "send an email to ahmad@example.com about the
budget" the Communication agent does decide to use a tool and extracts
`to="ahmad@example.com"` and the ≤50-character subject "the budget", but it
asks the registry for `"gmail_tool"` while the Gmail tool is registered as
`"send_email"`, so the registry answers tool-not-found and the email-send
tool is never invoked. -/
theorem gmail_name_mismatch_scenario :
    commShouldUseTool "send an email to ahmad@example.com about the budget" =
      ⟨true, some "gmail_tool", "User wants to compose email draft"⟩ ∧
    getParam (commExtractToolParameters
        "send an email to ahmad@example.com about the budget" "gmail_tool") "to" =
      some (.s "ahmad@example.com") ∧
    getParam (commExtractToolParameters
        "send an email to ahmad@example.com about the budget" "gmail_tool") "subject" =
      some (.s "the budget") ∧
    "the budget".length ≤ 50 ∧
    (gmailTool stubEffects).name = "send_email" ∧
    (registryLookup stubEffects testNow "gmail_tool").isNone = true ∧
    (executeToolByName stubEffects testNow "gmail_tool"
        (commExtractToolParameters
          "send an email to ahmad@example.com about the budget" "gmail_tool")).result =
      { success := false, error := some "Tool \x27gmail_tool\x27 not found",
        message := "Tool not found in registry" } ∧
    (executeToolByName stubEffects testNow "gmail_tool"
        (commExtractToolParameters
          "send an email to ahmad@example.com about the budget" "gmail_tool")).implCalled =
      false := by
  decide

/-- The Gmail confirmation prompt is never the empty string. -/
theorem gmailPrompt_ne_empty (ps : Params) : gmailConfirmationPrompt ps ≠ "" := by
  unfold gmailConfirmationPrompt
  split <;>
    · apply str_ne_empty_of_len
      repeat' apply str_append_len_pos
      decide

/-- The Calendar confirmation prompt is never the empty string. -/
theorem calendarPrompt_ne_empty (ps : Params) : calendarConfirmationPrompt ps ≠ "" := by
  unfold calendarConfirmationPrompt
  split <;>
    · apply str_ne_empty_of_len
      repeat' apply str_append_len_pos
      decide

/-- C2: for either registered tool (both are confirmation-gated), any
parameters that pass validation but do not carry a truthy `confirmed` make
`execute` short-circuit with `success=false`, `requires_confirmation=true`
and a non-empty confirmation prompt, without entering `_execute_impl`; in
particular the returned result satisfies the invariant that
`requires_confirmation=true` implies `success=false` with a prompt set. -/
theorem confirmation_gate_blocks_unconfirmed (fx : GmailEffects) (now : PyDateTime)
    (t : ToolSpec) (ps : Params)
    (ht : t = gmailTool fx ∨ t = calendarTool now)
    (hv : validate_parameters t.required_params ps = none)
    (hnc : truthy (getParamD ps "confirmed" (.b false)) = false) :
    (t.execute ps).result.success = false ∧
    (t.execute ps).result.requires_confirmation = true ∧
    (t.execute ps).implCalled = false ∧
    (∃ p, (t.execute ps).result.confirmation_prompt = some p ∧ p ≠ "") ∧
    ((t.execute ps).result.requires_confirmation = true →
      (t.execute ps).result.success = false ∧
      (t.execute ps).result.confirmation_prompt ≠ none) := by
  have hrc : t.requires_confirmation = true := by
    rcases ht with rfl | rfl <;> rfl
  have hexec : t.execute ps =
      { result := { success := false, requires_confirmation := true,
                    confirmation_prompt := some (t.confirmation_prompt ps),
                    message := "User confirmation required" },
        implCalled := false, log := [] } := by
    unfold ToolSpec.execute
    rw [hv]
    rw [if_pos ⟨by simp [hrc], by simp [hnc]⟩]
  refine ⟨by rw [hexec], by rw [hexec], by rw [hexec], ?_, ?_⟩
  · refine ⟨t.confirmation_prompt ps, by rw [hexec], ?_⟩
    rcases ht with rfl | rfl
    · exact gmailPrompt_ne_empty ps
    · exact calendarPrompt_ne_empty ps
  · intro _
    rw [hexec]
    exact ⟨rfl, by simp⟩

/-- Witness for C2: the Gmail tool with a valid `send` parameter set and no
confirmation flag. -/
theorem confirmation_gate_blocks_unconfirmed_witness :
    ((gmailTool stubEffects).execute [("operation", .s "send")]).result.success = false ∧
    ((gmailTool stubEffects).execute [("operation", .s "send")]).result.requires_confirmation
      = true ∧
    ((gmailTool stubEffects).execute [("operation", .s "send")]).implCalled = false ∧
    (∃ p, ((gmailTool stubEffects).execute
        [("operation", .s "send")]).result.confirmation_prompt = some p ∧ p ≠ "") ∧
    (((gmailTool stubEffects).execute
        [("operation", .s "send")]).result.requires_confirmation = true →
      ((gmailTool stubEffects).execute [("operation", .s "send")]).result.success = false ∧
      ((gmailTool stubEffects).execute
        [("operation", .s "send")]).result.confirmation_prompt ≠ none) :=
  confirmation_gate_blocks_unconfirmed stubEffects testNow (gmailTool stubEffects)
    [("operation", .s "send")] (Or.inl rfl) (by decide) (by decide)

/-- C4: whenever some declared required parameter is missing, `execute`
returns `success=false` with `requires_confirmation=false` and an error
naming a missing required parameter, and `_execute_impl` is never entered. -/
theorem missing_required_param_blocks_impl (t : ToolSpec) (ps : Params) (p : String)
    (hp : p ∈ t.required_params) (hmiss : getParam ps p = none) :
    (t.execute ps).result.success = false ∧
    (t.execute ps).result.requires_confirmation = false ∧
    (t.execute ps).implCalled = false ∧
    ∃ q, q ∈ t.required_params ∧ getParam ps q = none ∧
      (t.execute ps).result.error =
        some ("Invalid parameters: " ++ ("Missing required parameter: " ++ q)) := by
  have hsome : (t.required_params.find? (fun x => (getParam ps x).isNone)).isSome := by
    rw [List.find?_isSome]
    exact ⟨p, hp, by simp [hmiss]⟩
  obtain ⟨q, hq⟩ := Option.isSome_iff_exists.mp hsome
  have hqmem : q ∈ t.required_params := List.mem_of_find?_eq_some hq
  have hqmiss : getParam ps q = none := by
    have := List.find?_some hq
    simpa using this
  have hv : validate_parameters t.required_params ps =
      some ("Missing required parameter: " ++ q) := by
    unfold validate_parameters
    rw [hq]
    rfl
  have hexec : t.execute ps =
      { result := { success := false,
                    error := some ("Invalid parameters: " ++ ("Missing required parameter: " ++ q)),
                    message := "Parameter validation failed" },
        implCalled := false, log := [] } := by
    unfold ToolSpec.execute
    rw [hv]
  exact ⟨by rw [hexec], by rw [hexec], by rw [hexec],
    q, hqmem, hqmiss, by rw [hexec]⟩

/-- Witness for C4: the Calendar tool invoked with an empty parameter dict
is missing its required `operation` key. -/
theorem missing_required_param_blocks_impl_witness :
    ((calendarTool testNow).execute []).result.success = false ∧
    ((calendarTool testNow).execute []).result.requires_confirmation = false ∧
    ((calendarTool testNow).execute []).implCalled = false ∧
    ∃ q, q ∈ (calendarTool testNow).required_params ∧ getParam [] q = none ∧
      ((calendarTool testNow).execute []).result.error =
        some ("Invalid parameters: " ++ ("Missing required parameter: " ++ q)) :=
  missing_required_param_blocks_impl (calendarTool testNow) [] "operation"
    (by decide) rfl

/-- C9 (counterexample): a call of `execute` that fails validation — the
Calendar tool with an empty parameter dict — appends no execution-log entry
at all, so not every invocation appends exactly one entry. -/
theorem validation_failure_logs_nothing :
    ((calendarTool ⟨0, 0, 0, 0, 0⟩).execute []).log = [] ∧
    ((calendarTool ⟨0, 0, 0, 0, 0⟩).execute []).log.length ≠ 1 := by
  decide

/-- C9 (amended): `execute` appends exactly one log entry — recording the
tool name, the parameters and the success flag — precisely when control
reaches `_execute_impl` (normal return or raised exception); the
validation-failure and confirmation-required short-circuits append
nothing. -/
theorem execution_log_appended_iff_impl_reached (t : ToolSpec) (ps : Params) :
    ((validate_parameters t.required_params ps).isSome ∨
      (t.requires_confirmation = true ∧
        truthy (getParamD ps "confirmed" (.b false)) = false) →
      (t.execute ps).log = [] ∧ (t.execute ps).implCalled = false) ∧
    (validate_parameters t.required_params ps = none →
      (t.requires_confirmation = true → truthy (getParamD ps "confirmed" (.b false)) = true) →
      (t.execute ps).implCalled = true ∧
      ∃ e, (t.execute ps).log = [e] ∧ e.tool = t.name ∧ e.parameters = ps ∧
        e.success = (t.execute ps).result.success) := by
  constructor
  · intro h
    rcases h with h | ⟨hrc, hnc⟩
    · obtain ⟨err, herr⟩ := Option.isSome_iff_exists.mp h
      unfold ToolSpec.execute
      rw [herr]
      exact ⟨rfl, rfl⟩
    · cases hv : validate_parameters t.required_params ps with
      | some err =>
        unfold ToolSpec.execute
        rw [hv]
        exact ⟨rfl, rfl⟩
      | none =>
        unfold ToolSpec.execute
        rw [hv]
        rw [if_pos ⟨by simp [hrc], by simp [hnc]⟩]
        exact ⟨rfl, rfl⟩
  · intro hv hc
    unfold ToolSpec.execute
    rw [hv]
    have hcond : ¬ (t.requires_confirmation = true ∧
        ¬ truthy (getParamD ps "confirmed" (.b false)) = true) := by
      rintro ⟨h1, h2⟩
      exact h2 (hc h1)
    rw [if_neg hcond]
    cases ht : t.impl ps with
    | ok r => exact ⟨rfl, ⟨_, rfl, rfl, rfl, rfl⟩⟩
    | error e => exact ⟨rfl, ⟨_, rfl, rfl, rfl, rfl⟩⟩

/-- Witness for C9 (amended): a confirmed Calendar call reaches the
implementation and logs exactly one entry; an unconfirmed one logs
nothing. -/
theorem execution_log_appended_iff_impl_reached_witness :
    (((calendarTool testNow).execute
        [("operation", .s "list_events"), ("confirmed", .b true)]).implCalled = true ∧
      ∃ e, ((calendarTool testNow).execute
          [("operation", .s "list_events"), ("confirmed", .b true)]).log = [e] ∧
        e.tool = (calendarTool testNow).name ∧
        e.parameters = [("operation", .s "list_events"), ("confirmed", .b true)] ∧
        e.success = ((calendarTool testNow).execute
          [("operation", .s "list_events"), ("confirmed", .b true)]).result.success) ∧
    (((calendarTool testNow).execute [("operation", .s "list_events")]).log = [] ∧
      ((calendarTool testNow).execute [("operation", .s "list_events")]).implCalled = false) :=
  ⟨(execution_log_appended_iff_impl_reached (calendarTool testNow)
      [("operation", .s "list_events"), ("confirmed", .b true)]).2 (by decide)
      (fun _ => by decide),
   (execution_log_appended_iff_impl_reached (calendarTool testNow)
      [("operation", .s "list_events")]).1 (Or.inr ⟨rfl, by decide⟩)⟩

/-- C8 (counterexample): "schedule gym session at 5pm" has schedule intent
and a time cue ("pm"), so the Scheduler decides to use the calendar tool,
yet the extracted parameters contain no `start_time` at all — not the
claimed tomorrow-10:00 fallback. -/
theorem no_time_no_start_time_counterexample :
    (schedShouldUseTool "schedule gym session at 5pm").use_tool = true ∧
    getParam (extractCalendarParameters "schedule gym session at 5pm" ⟨0, 0, 0, 0, 0⟩)
      "start_time" = none := by
  decide

/-- C8 (amended): when the Scheduler decides to use the calendar tool but
the message contains neither "tomorrow" nor "today",
`_extract_calendar_parameters` sets no `start_time` key, and a confirmed
`create_event` execution with those parameters fails with the error
"start_time is required" — there is no tomorrow-10:00 fallback. -/
theorem no_time_expression_omits_start_time (msg : String) (now : PyDateTime)
    (huse : (schedShouldUseTool msg).use_tool = true)
    (h1 : pyContains (pyLower msg) "tomorrow" = false)
    (h2 : pyContains (pyLower msg) "today" = false) :
    getParam (extractCalendarParameters msg now) "start_time" = none ∧
    ((calendarTool now).execute
        (("confirmed", PVal.b true) :: extractCalendarParameters msg now)).result.success
      = false ∧
    ((calendarTool now).execute
        (("confirmed", PVal.b true) :: extractCalendarParameters msg now)).result.error
      = some "start_time is required" := by
  have hstart : getParam (extractCalendarParameters msg now) "start_time" = none := by
    unfold extractCalendarParameters
    dsimp only
    rw [h1, h2]
    split
    · split <;> simp [getParam]
    · split <;> simp [getParam]
  have hps : getParam (("confirmed", PVal.b true) :: extractCalendarParameters msg now)
      "start_time" = none := by
    rw [getParam]
    simpa using hstart
  have hop : getParam (("confirmed", PVal.b true) :: extractCalendarParameters msg now)
      "operation" = some (.s "create_event") := by
    rw [getParam]
    unfold extractCalendarParameters
    dsimp only
    simp [getParam]
  have hv : validate_parameters (calendarTool now).required_params
      (("confirmed", PVal.b true) :: extractCalendarParameters msg now) = none := by
    unfold validate_parameters
    have : (calendarTool now).required_params = ["operation"] := rfl
    rw [this]
    simp [List.find?, hop]
  have hexec : ((calendarTool now).execute
      (("confirmed", PVal.b true) :: extractCalendarParameters msg now)).result =
      calendarImplCore now (("confirmed", PVal.b true) :: extractCalendarParameters msg now) := by
    unfold ToolSpec.execute
    rw [hv]
    rw [if_neg (by simp [getParamD, getParam, truthy])]
    rfl
  have hcore : calendarImplCore now
      (("confirmed", PVal.b true) :: extractCalendarParameters msg now) =
      { success := false, error := some "start_time is required",
        message := "Please specify when the event should start" } := by
    unfold calendarImplCore
    rw [if_pos (by simp [getParamD, hop])]
    unfold calendarCreateEvent
    rw [hps]
  exact ⟨hstart, by rw [hexec, hcore], by rw [hexec, hcore]⟩

/-- Witness for C8 (amended) at the concrete message
"schedule gym session at 5pm". -/
theorem no_time_expression_omits_start_time_witness :
    getParam (extractCalendarParameters "schedule gym session at 5pm" testNow)
      "start_time" = none ∧
    ((calendarTool testNow).execute
        (("confirmed", PVal.b true) ::
          extractCalendarParameters "schedule gym session at 5pm" testNow)).result.success
      = false ∧
    ((calendarTool testNow).execute
        (("confirmed", PVal.b true) ::
          extractCalendarParameters "schedule gym session at 5pm" testNow)).result.error
      = some "start_time is required" :=
  no_time_expression_omits_start_time "schedule gym session at 5pm" testNow
    (by decide) (by decide) (by decide)

/-- C3 (counterexample): with a language-generation collaborator that
raises on every call, `process_message("Hello")` routes to the Chat agent,
which absorbs the failure inside `ai_service`'s own try/except layers, so
the returned result carries `agent_used="chat"` with no error in metadata —
not the claimed `agent_used="fallback"` with a populated error field. -/
theorem llm_failure_not_fallback :
    (processMessage cfgOk llmDown stubEffects testNow "Hello" none none).agent_used
      = "chat" ∧
    (processMessage cfgOk llmDown stubEffects testNow "Hello" none none).agent_used
      ≠ "fallback" ∧
    (processMessage cfgOk llmDown stubEffects testNow "Hello" none none).metadata_error
      = none := by
  refine ⟨rfl, by decide, rfl⟩

/-- When the primary agent returns normally, `process_message` assembles
the normal result record. -/
theorem processMessage_ok (cfg : AiCfg) (llm : Llm) (fx : GmailEffects) (now : PyDateTime)
    (msg : String) (ctx mem : Option String) (pr : AgentResp)
    (hok : agentProcessE cfg llm fx now (routeMessage msg) msg ctx mem = .ok pr) :
    processMessage cfg llm fx now msg ctx mem =
      { response := pr.content, emotion := aiAnalyzeEmotion cfg llm pr.content,
        agent_used := routeMessage msg,
        agent_display_name := agentDisplayName (routeMessage msg),
        metadata_error := none,
        metadata_memory_updated := some (shouldUpdateMemory msg pr.content).isSome,
        metadata_confidence := some pr.confidence } := by
  unfold processMessage
  dsimp only
  rw [hok]

/-- When the primary agent raises, `process_message` falls back to the Chat
agent with `agent_used="fallback"` and the error in metadata. -/
theorem processMessage_err (cfg : AiCfg) (llm : Llm) (fx : GmailEffects) (now : PyDateTime)
    (msg : String) (ctx mem : Option String) (e : String)
    (herr : agentProcessE cfg llm fx now (routeMessage msg) msg ctx mem = .error e) :
    processMessage cfg llm fx now msg ctx mem =
      { response := (chatProcess cfg llm msg ctx mem).content, emotion := "neutral",
        agent_used := "fallback", agent_display_name := "Fallback Agent",
        metadata_error := some e, metadata_memory_updated := none,
        metadata_confidence := none } := by
  unfold processMessage
  dsimp only
  rw [herr]

/-- C3 (amended): with a language-generation collaborator that raises on
every call, `process_message` still returns a well-formed result and never
raises, with `emotion="neutral"`; but the failure is absorbed inside the
agent layer, so `agent_used` is the routed agent's identifier and metadata
carries no error — the fallback branch (`agent_used="fallback"`, error
populated) is reached only when the primary agent itself raises, which
happens exactly for messages routed to the memory agent, whose `process`
is unimplemented (a bare `NotImplementedError`, whose message is empty). -/
theorem llm_failure_degrades_inside_agents (cfg : AiCfg) (llm : Llm) (fx : GmailEffects)
    (now : PyDateTime) (msg : String) (ctx mem : Option String)
    (hfail : ∀ p, ∃ e, llm p = .error e) :
    (processMessage cfg llm fx now msg ctx mem).emotion = "neutral" ∧
    (routeMessage msg ≠ "memory" →
      (processMessage cfg llm fx now msg ctx mem).agent_used = routeMessage msg ∧
      (processMessage cfg llm fx now msg ctx mem).metadata_error = none) ∧
    (routeMessage msg = "memory" →
      (processMessage cfg llm fx now msg ctx mem).agent_used = "fallback" ∧
      (processMessage cfg llm fx now msg ctx mem).metadata_error = some "") := by
  have hroute : routeMessage msg = "communication" ∨ routeMessage msg = "scheduler" ∨
      routeMessage msg = "docs" ∨ routeMessage msg = "memory" ∨
      routeMessage msg = "chat" := by
    unfold routeMessage
    dsimp only
    split_ifs <;> first
      | exact Or.inl rfl
      | exact Or.inr (Or.inl rfl)
      | exact Or.inr (Or.inr (Or.inl rfl))
      | exact Or.inr (Or.inr (Or.inr (Or.inl rfl)))
      | exact Or.inr (Or.inr (Or.inr (Or.inr rfl)))
  rcases hroute with h | h | h | h | h
  · have hok : agentProcessE cfg llm fx now (routeMessage msg) msg ctx mem
        = .ok (commProcess cfg llm fx now msg ctx mem) := by rw [h]; rfl
    rw [processMessage_ok cfg llm fx now msg ctx mem _ hok]
    exact ⟨aiAnalyzeEmotion_of_fail _ _ _ hfail, fun _ => ⟨rfl, rfl⟩,
      fun hmem => absurd (h.symm.trans hmem) (by decide)⟩
  · have hok : agentProcessE cfg llm fx now (routeMessage msg) msg ctx mem
        = .ok (schedProcess cfg llm fx now msg ctx mem) := by rw [h]; rfl
    rw [processMessage_ok cfg llm fx now msg ctx mem _ hok]
    exact ⟨aiAnalyzeEmotion_of_fail _ _ _ hfail, fun _ => ⟨rfl, rfl⟩,
      fun hmem => absurd (h.symm.trans hmem) (by decide)⟩
  · have hok : agentProcessE cfg llm fx now (routeMessage msg) msg ctx mem
        = .ok (docsProcess cfg llm msg ctx mem) := by rw [h]; rfl
    rw [processMessage_ok cfg llm fx now msg ctx mem _ hok]
    exact ⟨aiAnalyzeEmotion_of_fail _ _ _ hfail, fun _ => ⟨rfl, rfl⟩,
      fun hmem => absurd (h.symm.trans hmem) (by decide)⟩
  · have herr : agentProcessE cfg llm fx now (routeMessage msg) msg ctx mem
        = .error "" := by rw [h]; rfl
    rw [processMessage_err cfg llm fx now msg ctx mem _ herr]
    exact ⟨rfl, fun hne => absurd h hne, fun _ => ⟨rfl, rfl⟩⟩
  · have hok : agentProcessE cfg llm fx now (routeMessage msg) msg ctx mem
        = .ok (chatProcess cfg llm msg ctx mem) := by rw [h]; rfl
    rw [processMessage_ok cfg llm fx now msg ctx mem _ hok]
    exact ⟨aiAnalyzeEmotion_of_fail _ _ _ hfail, fun _ => ⟨rfl, rfl⟩,
      fun hmem => absurd (h.symm.trans hmem) (by decide)⟩

/-- Witness for C3 (amended) at the concrete failing collaborator and the
message "Hello". -/
theorem llm_failure_degrades_inside_agents_witness :
    (processMessage cfgOk llmDown stubEffects testNow "Hello" none none).emotion
      = "neutral" ∧
    (processMessage cfgOk llmDown stubEffects testNow "Hello" none none).agent_used
      = routeMessage "Hello" ∧
    (processMessage cfgOk llmDown stubEffects testNow "Hello" none none).metadata_error
      = none :=
  have h := llm_failure_degrades_inside_agents cfgOk llmDown stubEffects testNow
    "Hello" none none (fun _ => ⟨"LLM unavailable", rfl⟩)
  ⟨h.1, (h.2.1 (by decide)).1, (h.2.1 (by decide)).2⟩
